import Mathlib

/-!
Shallow embedding of the scheduling state machine of
`src/claude_scheduler.py` (class `ClaudeScheduler`).

Scope: the mode state machine (Idle / AutoArmed / CustomArmed), the
caffeinate WakeLock, the custom one-shot waiter with cooperative
cancellation, the recurring 30-second schedule checker with its
`last_triggered` debounce, and `set_custom_time` input validation
(Python `datetime.strptime(s, "%H:%M")` semantics).

Time of day is modelled in seconds since midnight (0 .. 86399); the
Python code compares `datetime` values of the same day, which reduces to
comparing seconds-of-day.  External side effects (spawning `caffeinate`,
terminating it, and `trigger_claude`) are recorded in an effect trace.
-/

namespace ClaudeScheduler

/-- `SCHEDULE_TIMES = ["04:00", "09:00", "14:00", "19:00"]` from the source. -/
def SCHEDULE_TIMES : List String := ["04:00", "09:00", "14:00", "19:00"]

/-- Numeric value of an ASCII digit character. -/
def digitVal (c : Char) : Nat := c.toNat - 48

/-- Python `str.strip()`: drop leading and trailing whitespace. -/
def pyStrip (s : String) : String :=
  ⟨((s.toList.dropWhile Char.isWhitespace).reverse.dropWhile
      Char.isWhitespace).reverse⟩

/-- Python `datetime.strptime(s, "%H:%M")`: full match of
`(2[0-3]|[0-1]\d|\d):([0-5]\d|\d)` (strptime raises `ValueError` both on
no-match and on unconverted trailing data, so the whole string must be
consumed).  The hour field is one digit, or two digits with value ≤ 23;
the minute field is one digit, or two digits with value ≤ 59; the
matching strings therefore have 3 to 5 characters with the colon fixed. -/
def parseHM (s : String) : Option (Nat × Nat) :=
  match s.toList with
  | [a, b, c] =>
    if b = ':' ∧ a.isDigit ∧ c.isDigit then some (digitVal a, digitVal c)
    else none
  | [a, b, c, d] =>
    if b = ':' ∧ a.isDigit ∧ c.isDigit ∧ d.isDigit ∧
        digitVal c * 10 + digitVal d ≤ 59 then
      some (digitVal a, digitVal c * 10 + digitVal d)
    else if c = ':' ∧ a.isDigit ∧ b.isDigit ∧ d.isDigit ∧
        digitVal a * 10 + digitVal b ≤ 23 then
      some (digitVal a * 10 + digitVal b, digitVal d)
    else none
  | [a, b, c, d, e] =>
    if c = ':' ∧ a.isDigit ∧ b.isDigit ∧ d.isDigit ∧ e.isDigit ∧
        digitVal a * 10 + digitVal b ≤ 23 ∧
        digitVal d * 10 + digitVal e ≤ 59 then
      some (digitVal a * 10 + digitVal b, digitVal d * 10 + digitVal e)
    else none
  | _ => none

/-- Seconds since midnight denoted by a schedule string (all entries of
`SCHEDULE_TIMES` parse). -/
def timeStrToSec (t : String) : Nat :=
  match parseHM t with
  | some hm => hm.1 * 3600 + hm.2 * 60
  | none => 0

/-- `set_custom_time` line 285-286: auto-insert a colon when the stripped
input is exactly 4 digits. -/
def insertColon (s : String) : String :=
  if s.toList.length = 4 ∧ s.toList.all Char.isDigit then
    ⟨s.toList.take 2 ++ [':'] ++ s.toList.drop 2⟩
  else s

/-- Zero-padded two-digit rendering used by `strftime("%H:%M")`. -/
def fmt2 (n : Nat) : String := (if n < 10 then "0" else "") ++ toString n

/-- `now.strftime("%H:%M")` for a seconds-of-day value. -/
def fmtHM (now : Nat) : String := fmt2 (now / 3600) ++ ":" ++ fmt2 (now % 3600 / 60)

/-- External side effects of the engine: spawning the `caffeinate -i`
subprocess, terminating it, and `trigger_claude()`. -/
inductive Eff
  | startCaff
  | stopCaff
  | trigger
deriving DecidableEq, Repr

/-- The mutable fields of the `ClaudeScheduler` instance that the state
machine reads and writes, plus `custom_thread_alive` / `check_alive`
standing for liveness of the two background threads. -/
structure SchedState where
  auto_mode : Bool
  stop_event : Bool
  caffeinate : Bool
  last_triggered : Option String
  custom_time : Option String
  custom_cancel_event : Bool
  custom_thread_alive : Bool
  check_alive : Bool
  title : String
  next_label : String
  auto_button_title : String
  cancel_button_visible : Bool
  prefs_auto : Bool
deriving DecidableEq, Repr

/-- The state right after `__init__` (before any command). -/
def init : SchedState :=
  { auto_mode := false
    stop_event := false
    caffeinate := false
    last_triggered := none
    custom_time := none
    custom_cancel_event := false
    custom_thread_alive := false
    check_alive := false
    title := "⏰ Claude"
    next_label := "Next: --:--"
    auto_button_title := "Enable Auto Schedule"
    cancel_button_visible := false
    prefs_auto := false }

/-- The spec's derived mode: AutoArmed when the checker flag is on,
CustomArmed when a custom time is set, Idle otherwise. -/
inductive Mode
  | Idle
  | AutoArmed
  | CustomArmed
deriving DecidableEq, Repr

def SchedState.mode (s : SchedState) : Mode :=
  if s.auto_mode then Mode.AutoArmed
  else if s.custom_time.isSome then Mode.CustomArmed
  else Mode.Idle

/-- `start_caffeinate` (line 220): spawn only when no process is live. -/
def start_caffeinate (s : SchedState) : SchedState × List Eff :=
  if s.caffeinate then (s, [])
  else ({ s with caffeinate := true }, [Eff.startCaff])

/-- `stop_caffeinate` (line 224): terminate only when a process is live. -/
def stop_caffeinate (s : SchedState) : SchedState × List Eff :=
  if s.caffeinate then ({ s with caffeinate := false }, [Eff.stopCaff])
  else (s, [])

/-- `clear_custom` (line 355): drop the custom time, hide the cancel
button, and when auto mode is off also reset the display and release the
WakeLock. -/
def clear_custom (s : SchedState) : SchedState × List Eff :=
  let s := { s with custom_time := none, cancel_button_visible := false }
  if s.auto_mode then (s, [])
  else
    stop_caffeinate
      { s with title := "⏰ Claude", next_label := "Next: --:--" }

/-- `get_next_scheduled_time` (line 229): first entry of `SCHEDULE_TIMES`
strictly after `now` today, else the first entry tomorrow.  Result is
(day offset, time string). -/
def get_next_scheduled_time (now : Nat) : Nat × String :=
  match SCHEDULE_TIMES.find? (fun t => decide (now < timeStrToSec t)) with
  | some t => (0, t)
  | none => (1, SCHEDULE_TIMES.getD 0 "")

/-- `toggle_auto` (line 243).  The disable branch stops the checker and
the WakeLock and resets the display; the enable branch first cancels any
custom schedule, then arms the checker. -/
def toggle_auto (s : SchedState) : SchedState × List Eff :=
  if s.auto_mode then
    let s := { s with auto_mode := false, stop_event := true }
    let (s, e) := stop_caffeinate s
    let s := { s with
      auto_button_title := "Enable Auto Schedule"
      title := "⏰ Claude"
      next_label := "Next: --:--"
      prefs_auto := false }
    (s, e)
  else
    let (s, e1) :=
      if s.custom_time.isSome then
        clear_custom { s with custom_cancel_event := true }
      else (s, [])
    let s := { s with auto_mode := true, stop_event := false }
    let (s, e2) := start_caffeinate s
    let s := { s with
      auto_button_title := "Disable Auto Schedule"
      check_alive := true
      prefs_auto := true }
    (s, e1 ++ e2)

/-- Outcome of a `set_custom_time` call, identified by which notification
path the code takes: the `ValueError` handler ("Invalid time format"),
the waiter's immediate "Time has already passed today" exit, or success. -/
inductive SchedResult
  | ok
  | invalidTimeFormat
  | timeAlreadyPassed
deriving DecidableEq, Repr

/-- Body of `set_custom_time` (line 281-312) after the colon insertion,
together with the immediate part of the spawned waiter thread
(`start_custom_scheduler`, line 314): when the computed wait is ≤ 0 the
thread notifies, runs `clear_custom` and exits at once. -/
def set_custom_time_core (s : SchedState) (time_input : String) (now : Nat) :
    SchedState × List Eff × SchedResult :=
  match parseHM time_input with
  | none => (s, [], SchedResult.invalidTimeFormat)
  | some hm =>
    let s :=
      if s.auto_mode then
        { s with auto_mode := false, stop_event := true,
                 auto_button_title := "Enable Auto Schedule" }
      else s
    let s := { s with custom_time := some time_input, custom_cancel_event := false }
    let (s, e1) := start_caffeinate s
    let s := { s with custom_cancel_event := false, custom_thread_alive := true }
    let s := { s with cancel_button_visible := true }
    let s :=
      if s.auto_mode then s
      else { s with title := "⏰ " ++ time_input,
                    next_label := "Next: " ++ time_input }
    let target := hm.1 * 3600 + hm.2 * 60
    if target ≤ now then
      let s := { s with custom_thread_alive := false }
      let (s, e2) := clear_custom s
      (s, e1 ++ e2, SchedResult.timeAlreadyPassed)
    else (s, e1, SchedResult.ok)

/-- `set_custom_time`: strip the dialog text, auto-insert the colon for 4
raw digits, then validate and schedule. -/
def set_custom_time (s : SchedState) (input : String) (now : Nat) :
    SchedState × List Eff × SchedResult :=
  set_custom_time_core s (insertColon (pyStrip input)) now

/-- `cancel_custom` (line 350): set the cancel signal, then `clear_custom`. -/
def cancel_custom (s : SchedState) : SchedState × List Eff :=
  clear_custom { s with custom_cancel_event := true }

/-- The custom waiter completing its wait (`run_at_time` after the sleep
loop): if the cancel signal is set the thread returns without firing,
otherwise it calls `trigger_claude` and `clear_custom`. -/
def custom_fire (s : SchedState) : SchedState × List Eff :=
  if s.custom_thread_alive then
    if s.custom_cancel_event then
      ({ s with custom_thread_alive := false }, [])
    else
      let s := { s with custom_thread_alive := false }
      let (s, e) := clear_custom s
      (s, Eff.trigger :: e)
  else (s, [])

/-- One iteration of `check_loop` (`start_schedule_checker`, line 364):
exit when the stop signal is set; else refresh the next-time display,
and fire when the current minute matches a schedule entry different from
`last_triggered`. -/
def schedule_check (s : SchedState) (now : Nat) : SchedState × List Eff :=
  if !s.check_alive then (s, [])
  else if s.stop_event then ({ s with check_alive := false }, [])
  else
    let next := get_next_scheduled_time now
    let s := { s with next_label := "Next: " ++ next.2, title := "⏰ " ++ next.2 }
    let current_time := fmtHM now
    if SCHEDULE_TIMES.contains current_time &&
        s.last_triggered != some current_time then
      ({ s with last_triggered := some current_time }, [Eff.trigger])
    else (s, [])

/-- The serialized commands and timer events of the engine. -/
inductive Event
  | toggleAuto
  | scheduleCustom (input : String) (now : Nat)
  | cancelCustom
  | customFire
  | autoPoll (now : Nat)

def step (s : SchedState) (e : Event) : SchedState × List Eff :=
  match e with
  | Event.toggleAuto => toggle_auto s
  | Event.scheduleCustom input now =>
    let r := set_custom_time s input now
    (r.1, r.2.1)
  | Event.cancelCustom => cancel_custom s
  | Event.customFire => custom_fire s
  | Event.autoPoll now => schedule_check s now

/-- Run a finite event sequence from the initial state. -/
def run (es : List Event) : SchedState :=
  es.foldl (fun s e => (step s e).1) init

/-- The sleep loop of `run_at_time` (line 329-337), wait measured in
microseconds (`datetime` resolution): while wait remains, check the
cancel signal, sleep `min(1 s, wait)`, and decrement; after the loop
check the signal once more and only then fire.  `cancelled i` is the
value of `custom_cancel_event.is_set()` at the i-th check; the result is
whether the waiter fires. -/
def waitLoop (cancelled : Nat → Bool) (i : Nat) (w : Nat) : Bool :=
  if 0 < w then
    if cancelled i then false
    else waitLoop cancelled (i + 1) (w - min 1000000 w)
  else !cancelled i
termination_by w
decreasing_by omega

/-- Number of sleep iterations of the loop for a given wait; the final
signal check happens at index `waitIters w`. -/
def waitIters (w : Nat) : Nat :=
  if 0 < w then waitIters (w - min 1000000 w) + 1 else 0
termination_by w
decreasing_by omega

/-- The inductive invariant: the WakeLock mirrors "some schedule armed",
and auto mode and a set custom time never coexist. -/
def Inv (s : SchedState) : Prop :=
  s.caffeinate = (s.auto_mode || s.custom_time.isSome) ∧
  (s.auto_mode = true → s.custom_time = none)

theorem inv_init : Inv init := by
  constructor <;> simp [init]

theorem inv_toggle_auto (s : SchedState) (h : Inv s) : Inv (toggle_auto s).1 := by
  obtain ⟨h1, h2⟩ := h
  cases ha : s.auto_mode with
  | true =>
    have hc : s.custom_time = none := h2 ha
    simp [toggle_auto, stop_caffeinate, ha, hc, Inv, h1]
  | false =>
    cases hct : s.custom_time with
    | none =>
      cases hcf : s.caffeinate <;>
        simp_all [toggle_auto, start_caffeinate, clear_custom, stop_caffeinate, Inv]
    | some t =>
      cases hcf : s.caffeinate <;>
        simp_all [toggle_auto, start_caffeinate, clear_custom, stop_caffeinate, Inv]

theorem inv_set_custom_time (s : SchedState) (input : String) (now : Nat)
    (h : Inv s) : Inv (set_custom_time s input now).1 := by
  obtain ⟨h1, h2⟩ := h
  unfold set_custom_time set_custom_time_core
  cases hp : parseHM (insertColon (pyStrip input)) with
  | none => exact ⟨h1, h2⟩
  | some hm =>
    cases ha : s.auto_mode <;>
      cases hcf : s.caffeinate <;>
        simp_all [start_caffeinate, clear_custom, stop_caffeinate, Inv] <;>
          split <;> simp_all

theorem inv_cancel_custom (s : SchedState) (h : Inv s) : Inv (cancel_custom s).1 := by
  obtain ⟨h1, h2⟩ := h
  cases ha : s.auto_mode <;>
    cases hcf : s.caffeinate <;>
      simp_all [cancel_custom, clear_custom, stop_caffeinate, Inv]

theorem inv_custom_fire (s : SchedState) (h : Inv s) : Inv (custom_fire s).1 := by
  obtain ⟨h1, h2⟩ := h
  cases ha : s.auto_mode <;>
    cases hcf : s.caffeinate <;>
      cases hth : s.custom_thread_alive <;>
        cases hce : s.custom_cancel_event <;>
          simp_all [custom_fire, clear_custom, stop_caffeinate, Inv]

theorem inv_schedule_check (s : SchedState) (now : Nat) (h : Inv s) :
    Inv (schedule_check s now).1 := by
  obtain ⟨h1, h2⟩ := h
  unfold schedule_check
  cases hch : s.check_alive with
  | false => exact ⟨h1, h2⟩
  | true =>
    cases hst : s.stop_event with
    | true => exact ⟨h1, h2⟩
    | false =>
      simp only [Bool.not_true, Bool.false_eq_true, if_false, if_true]
      split <;> exact ⟨h1, h2⟩

theorem inv_step (s : SchedState) (e : Event) (h : Inv s) : Inv (step s e).1 := by
  cases e with
  | toggleAuto => exact inv_toggle_auto s h
  | scheduleCustom input now => exact inv_set_custom_time s input now h
  | cancelCustom => exact inv_cancel_custom s h
  | customFire => exact inv_custom_fire s h
  | autoPoll now => exact inv_schedule_check s now h

theorem inv_foldl (s : SchedState) (es : List Event) (h : Inv s) :
    Inv (es.foldl (fun s e => (step s e).1) s) := by
  induction es generalizing s with
  | nil => exact h
  | cons e es ih => exact ih _ (inv_step s e h)

theorem inv_run (es : List Event) : Inv (run es) := inv_foldl init es inv_init

/-- If the cancel signal is set by the time of the waiter's final check
(index `waitIters w`), the waiter returns without firing — either some
earlier per-second check already saw the signal, or the final check does. -/
theorem waitLoop_cancelled (cancelled : Nat → Bool) :
    ∀ w i, cancelled (i + waitIters w) = true → waitLoop cancelled i w = false := by
  intro w
  induction w using Nat.strong_induction_on with
  | _ w ih =>
    intro i hset
    rw [waitLoop]
    by_cases hw : 0 < w
    · simp only [hw, if_true]
      by_cases hc : cancelled i
      · simp [hc]
      · simp only [hc, Bool.false_eq_true, if_false]
        have hlt : w - min 1000000 w < w := by omega
        apply ih _ hlt
        rw [waitIters, if_pos hw] at hset
        have : i + 1 + waitIters (w - min 1000000 w) = i + (waitIters (w - min 1000000 w) + 1) := by
          omega
        rw [this]
        exact hset
    · simp only [hw, if_false]
      rw [waitIters, if_neg hw] at hset
      simp only [Nat.add_zero] at hset
      simp [hset]

/-- C1: starting from the initial state, after every finite sequence of
toggle-auto, schedule-custom, cancel-custom, custom-fire and checker-poll
events, the caffeinate WakeLock is held iff the derived mode is not
Idle, i.e. iff auto mode is enabled or a custom time is set. -/
theorem wakelock_iff_not_idle (es : List Event) :
    (run es).caffeinate = true ↔ (run es).mode ≠ Mode.Idle := by
  obtain ⟨h1, h2⟩ := inv_run es
  unfold SchedState.mode
  cases ha : (run es).auto_mode <;> cases hct : (run es).custom_time <;>
    simp_all

/-- C2 counterexample: the code's auto button is a toggle; invoking
`toggle_auto` while already AutoArmed does not leave the mode AutoArmed
— it disables auto mode and lands in Idle. -/
theorem toggle_auto_twice_not_armed :
    (toggle_auto init).1.mode = Mode.AutoArmed ∧
    (toggle_auto (toggle_auto init).1).1.mode ≠ Mode.AutoArmed ∧
    (toggle_auto (toggle_auto init).1).1.mode = Mode.Idle := by
  refine ⟨by decide, by decide, by decide⟩

/-- C2 amended: there is no idempotent EnableAuto on an AutoArmed
engine; `toggle_auto` from AutoArmed takes the disable branch — auto
mode turns off, the checker stop signal is set, and (custom time being
none) the engine is Idle. -/
theorem toggle_auto_from_armed_disables (s : SchedState)
    (h1 : s.auto_mode = true) (h2 : s.custom_time = none) :
    (toggle_auto s).1.auto_mode = false ∧
    (toggle_auto s).1.stop_event = true ∧
    (toggle_auto s).1.caffeinate = false ∧
    (toggle_auto s).1.mode = Mode.Idle := by
  cases hcf : s.caffeinate <;>
    simp [toggle_auto, stop_caffeinate, SchedState.mode, h1, h2, hcf]

/-- C2 amended, witness at the state reached by one enable from init. -/
theorem toggle_auto_from_armed_disables_witness :
    (toggle_auto (toggle_auto init).1).1.auto_mode = false ∧
    (toggle_auto (toggle_auto init).1).1.stop_event = true ∧
    (toggle_auto (toggle_auto init).1).1.caffeinate = false ∧
    (toggle_auto (toggle_auto init).1).1.mode = Mode.Idle :=
  toggle_auto_from_armed_disables (toggle_auto init).1 (by decide) (by decide)

/-- C3 counterexample: `ScheduleCustom("9:5")` does not fail with
InvalidTimeFormat — Python's lenient `%H:%M` parsing accepts single
digit fields, so it is scheduled (as 09:05). -/
theorem schedule_nine_five_accepted :
    (set_custom_time init "9:5" 0).2.2 = SchedResult.ok ∧
    (set_custom_time init "9:5" 0).2.2 ≠ SchedResult.invalidTimeFormat ∧
    parseHM "9:5" = some (9, 5) := by
  refine ⟨by decide, by decide, by decide⟩

/-- C3 amended: `"25:00"` fails with InvalidTimeFormat leaving the state
untouched; `"9:5"` is accepted (lenient strptime, parsed as 09:05) and
does not raise InvalidTimeFormat; a 4-raw-digit input has a colon
auto-inserted, so `"0901"` behaves exactly like `"09:01"` from any state. -/
theorem schedule_custom_format_behaviour :
    (∀ s now, (set_custom_time s "25:00" now).2.2 = SchedResult.invalidTimeFormat ∧
       (set_custom_time s "25:00" now).1 = s) ∧
    parseHM "9:5" = some (9, 5) ∧
    (set_custom_time init "9:5" 0).2.2 = SchedResult.ok ∧
    (∀ s now, set_custom_time s "0901" now = set_custom_time s "09:01" now) := by
  refine ⟨?_, by decide, by decide, ?_⟩
  · intro s now
    unfold set_custom_time
    rw [show insertColon (pyStrip "25:00") = "25:00" from by decide]
    unfold set_custom_time_core
    rw [show parseHM "25:00" = none from by decide]
    exact ⟨rfl, rfl⟩
  · intro s now
    unfold set_custom_time
    rw [show insertColon (pyStrip "0901") = insertColon (pyStrip "09:01") from by decide]

/-- C10: `set_custom_time` is atomic on a format error — for every input
whose (colon-inserted, stripped) text fails `%H:%M` validation, the call
returns InvalidTimeFormat with the state exactly as before and no side
effects (validation precedes every mutation). -/
theorem invalid_format_leaves_state_unchanged (s : SchedState) (input : String)
    (now : Nat) (h : parseHM (insertColon (pyStrip input)) = none) :
    set_custom_time s input now = (s, [], SchedResult.invalidTimeFormat) := by
  unfold set_custom_time set_custom_time_core
  rw [h]

/-- C10 witness: a concrete malformed input. -/
theorem invalid_format_leaves_state_unchanged_witness :
    parseHM (insertColon (pyStrip "banana")) = none ∧
    set_custom_time init "banana" 0 = (init, [], SchedResult.invalidTimeFormat) :=
  ⟨by decide, invalid_format_leaves_state_unchanged init "banana" 0 (by decide)⟩

/-- C4: for every input denoting a time of day `t` whose today instant
has already passed (computed wait ≤ 0, i.e. target seconds ≤ now), the
call reports TimeAlreadyPassed, the custom schedule is cleared, the
engine ends Idle (not CustomArmed), and the WakeLock is released. -/
theorem schedule_past_time_falls_back_to_idle (s : SchedState) (input : String)
    (now : Nat) (hm : Nat × Nat)
    (hp : parseHM (insertColon (pyStrip input)) = some hm)
    (hpast : hm.1 * 3600 + hm.2 * 60 ≤ now) :
    (set_custom_time s input now).2.2 = SchedResult.timeAlreadyPassed ∧
    (set_custom_time s input now).1.custom_time = none ∧
    (set_custom_time s input now).1.mode = Mode.Idle ∧
    (set_custom_time s input now).1.caffeinate = false := by
  unfold set_custom_time set_custom_time_core
  rw [hp]
  cases ha : s.auto_mode <;> cases hcf : s.caffeinate <;>
    simp [start_caffeinate, clear_custom, stop_caffeinate, SchedState.mode,
      hpast, ha, hcf]

/-- C4 witness: scheduling "04:00" at 23:59:59. -/
theorem schedule_past_time_falls_back_to_idle_witness :
    parseHM (insertColon (pyStrip "04:00")) = some (4, 0) ∧
    (set_custom_time init "04:00" 86399).2.2 = SchedResult.timeAlreadyPassed ∧
    (set_custom_time init "04:00" 86399).1.custom_time = none ∧
    (set_custom_time init "04:00" 86399).1.mode = Mode.Idle ∧
    (set_custom_time init "04:00" 86399).1.caffeinate = false := by
  refine ⟨by decide, ?_⟩
  have h := schedule_past_time_falls_back_to_idle init "04:00" 86399 (4, 0)
    (by decide) (by decide)
  exact ⟨h.1, h.2.1, h.2.2.1, h.2.2.2⟩

/-- C5 counterexample: after the checker fires at 09:00 and auto mode is
then disabled, `last_triggered` is still "09:00" — `toggle_auto`'s
disable branch never clears the LastTriggeredMarker. -/
theorem disable_auto_keeps_last_triggered :
    (schedule_check (toggle_auto init).1 32400).1.auto_mode = true ∧
    (schedule_check (toggle_auto init).1 32400).1.last_triggered = some "09:00" ∧
    (toggle_auto (schedule_check (toggle_auto init).1 32400).1).1.auto_mode
      = false ∧
    (toggle_auto (schedule_check (toggle_auto init).1 32400).1).1.last_triggered
      = some "09:00" := by
  refine ⟨by decide, by decide, by decide, by decide⟩

/-- C5 amended: disabling auto mode from AutoArmed transitions to Idle
and performs three of the four claimed effects — it signals the checker
to stop, releases the WakeLock and resets the next-fire display to the
unscheduled placeholder — but it leaves `last_triggered` unchanged. -/
theorem disable_auto_effects (s : SchedState) (h1 : s.auto_mode = true)
    (h2 : s.custom_time = none) :
    (toggle_auto s).1.auto_mode = false ∧
    (toggle_auto s).1.stop_event = true ∧
    (toggle_auto s).1.caffeinate = false ∧
    (toggle_auto s).1.title = "⏰ Claude" ∧
    (toggle_auto s).1.next_label = "Next: --:--" ∧
    (toggle_auto s).1.auto_button_title = "Enable Auto Schedule" ∧
    (toggle_auto s).1.mode = Mode.Idle ∧
    (toggle_auto s).1.last_triggered = s.last_triggered := by
  cases hcf : s.caffeinate <;>
    simp [toggle_auto, stop_caffeinate, SchedState.mode, h1, h2, hcf]

/-- C5 amended, witness at a state where the marker is set. -/
theorem disable_auto_effects_witness :
    (toggle_auto (schedule_check (toggle_auto init).1 32400).1).1.auto_mode
        = false ∧
    (toggle_auto (schedule_check (toggle_auto init).1 32400).1).1.stop_event
        = true ∧
    (toggle_auto (schedule_check (toggle_auto init).1 32400).1).1.caffeinate
        = false ∧
    (toggle_auto (schedule_check (toggle_auto init).1 32400).1).1.title
        = "⏰ Claude" ∧
    (toggle_auto (schedule_check (toggle_auto init).1 32400).1).1.next_label
        = "Next: --:--" ∧
    (toggle_auto (schedule_check (toggle_auto init).1 32400).1).1.auto_button_title
        = "Enable Auto Schedule" ∧
    (toggle_auto (schedule_check (toggle_auto init).1 32400).1).1.mode
        = Mode.Idle ∧
    (toggle_auto (schedule_check (toggle_auto init).1 32400).1).1.last_triggered
        = (schedule_check (toggle_auto init).1 32400).1.last_triggered :=
  disable_auto_effects (schedule_check (toggle_auto init).1 32400).1
    (by decide) (by decide)

/-- C7: while the checker runs, two consecutive polls that both observe
the same matching minute fire exactly once — the first poll fires (the
matched entry differs from `last_triggered`) and records the entry in
`last_triggered`, which suppresses the second poll. -/
theorem consecutive_polls_fire_once (s : SchedState) (now1 now2 : Nat)
    (t : String) (hch : s.check_alive = true) (hst : s.stop_event = false)
    (hmem : SCHEDULE_TIMES.contains t = true) (hlast : s.last_triggered ≠ some t)
    (h1 : fmtHM now1 = t) (h2 : fmtHM now2 = t) :
    ((schedule_check s now1).2 ++
        (schedule_check (schedule_check s now1).1 now2).2).count Eff.trigger
      = 1 ∧
    (schedule_check (schedule_check s now1).1 now2).1.last_triggered = some t := by
  have hb : (s.last_triggered != some t) = true := by
    simpa using hlast
  unfold schedule_check
  simp only [hch, hst, Bool.not_true, Bool.false_eq_true, if_false, h1, h2,
    hmem, hb, Bool.true_and, Bool.and_self, if_true]
  simp

/-- C7 witness: a fresh AutoArmed engine polled twice at 09:00. -/
theorem consecutive_polls_fire_once_witness :
    ((schedule_check (toggle_auto init).1 32400).2 ++
        (schedule_check (schedule_check (toggle_auto init).1 32400).1 32430).2).count
        Eff.trigger = 1 ∧
    (schedule_check (schedule_check (toggle_auto init).1 32400).1 32430).1.last_triggered
      = some "09:00" :=
  consecutive_polls_fire_once (toggle_auto init).1 32400 32430 "09:00"
    (by decide) (by decide) (by decide) (by decide) (by decide) (by decide)

/-- C8: the armed modes exclude each other.  Enabling auto while
CustomArmed signals the custom timer's cancel event and clears the
custom schedule before landing in AutoArmed; scheduling a valid future
custom time while AutoArmed signals the checker to stop and lands in
CustomArmed, and the WakeLock is held afterwards with no release
(`stop_caffeinate` termination) anywhere in that operation. -/
theorem armed_modes_mutually_exclusive :
    (∀ s, s.auto_mode = false → s.custom_time.isSome = true →
      (toggle_auto s).1.mode = Mode.AutoArmed ∧
      (toggle_auto s).1.custom_time = none ∧
      (toggle_auto s).1.custom_cancel_event = true) ∧
    (∀ s input now hm, s.auto_mode = true → s.caffeinate = true →
      parseHM (insertColon (pyStrip input)) = some hm →
      now < hm.1 * 3600 + hm.2 * 60 →
      (set_custom_time s input now).2.2 = SchedResult.ok ∧
      (set_custom_time s input now).1.mode = Mode.CustomArmed ∧
      (set_custom_time s input now).1.auto_mode = false ∧
      (set_custom_time s input now).1.stop_event = true ∧
      (set_custom_time s input now).1.caffeinate = true ∧
      Eff.stopCaff ∉ (set_custom_time s input now).2.1) := by
  constructor
  · intro s ha hct
    obtain ⟨t, ht⟩ := Option.isSome_iff_exists.mp hct
    cases hcf : s.caffeinate <;>
      simp [toggle_auto, clear_custom, start_caffeinate, stop_caffeinate,
        SchedState.mode, ha, ht, hcf]
  · intro s input now hm ha hcf hp hfut
    unfold set_custom_time set_custom_time_core
    rw [hp]
    simp [start_caffeinate, clear_custom, stop_caffeinate, SchedState.mode,
      ha, hcf, Nat.not_le.mpr hfut]

/-- C8 witness: enable auto on a custom-armed engine, and schedule a
future custom time on an auto-armed engine. -/
theorem armed_modes_mutually_exclusive_witness :
    ((toggle_auto (set_custom_time init "09:00" 0).1).1.mode = Mode.AutoArmed ∧
     (toggle_auto (set_custom_time init "09:00" 0).1).1.custom_time = none ∧
     (toggle_auto (set_custom_time init "09:00" 0).1).1.custom_cancel_event
        = true) ∧
    ((set_custom_time (toggle_auto init).1 "14:00" 0).2.2 = SchedResult.ok ∧
     (set_custom_time (toggle_auto init).1 "14:00" 0).1.mode
        = Mode.CustomArmed ∧
     (set_custom_time (toggle_auto init).1 "14:00" 0).1.auto_mode = false ∧
     (set_custom_time (toggle_auto init).1 "14:00" 0).1.stop_event = true ∧
     (set_custom_time (toggle_auto init).1 "14:00" 0).1.caffeinate = true ∧
     Eff.stopCaff ∉ (set_custom_time (toggle_auto init).1 "14:00" 0).2.1) :=
  ⟨armed_modes_mutually_exclusive.1 (set_custom_time init "09:00" 0).1
      (by decide) (by decide),
   armed_modes_mutually_exclusive.2 (toggle_auto init).1 "14:00" 0 (14, 0)
      (by decide) (by decide) (by decide) (by decide)⟩

/-- C6: `get_next_scheduled_time` returns the earliest schedule entry
strictly after `now` (day offset 0) whenever one exists, and wraps to
the first entry on the next day (day offset 1) when every entry has
passed; concretely, at 08:59 it returns 09:00 today and at 19:01 it
returns 04:00 tomorrow. -/
theorem next_fire_time_correct :
    (∀ now t0, get_next_scheduled_time now = (0, t0) →
      t0 ∈ SCHEDULE_TIMES ∧ now < timeStrToSec t0 ∧
      ∀ t ∈ SCHEDULE_TIMES, now < timeStrToSec t → timeStrToSec t0 ≤ timeStrToSec t) ∧
    (∀ now, (∃ t ∈ SCHEDULE_TIMES, now < timeStrToSec t) →
      (get_next_scheduled_time now).1 = 0) ∧
    (∀ now, (∀ t ∈ SCHEDULE_TIMES, timeStrToSec t ≤ now) →
      get_next_scheduled_time now = (1, "04:00")) ∧
    get_next_scheduled_time (8 * 3600 + 59 * 60) = (0, "09:00") ∧
    get_next_scheduled_time (19 * 3600 + 60) = (1, "04:00") := by
  have e4 : timeStrToSec "04:00" = 14400 := by decide
  have e9 : timeStrToSec "09:00" = 32400 := by decide
  have e14 : timeStrToSec "14:00" = 50400 := by decide
  have e19 : timeStrToSec "19:00" = 68400 := by decide
  refine ⟨?_, ?_, ?_, by decide, by decide⟩
  · intro now t0 h
    unfold get_next_scheduled_time SCHEDULE_TIMES at h
    simp only [List.find?, e4, e9, e14, e19, SCHEDULE_TIMES] at h ⊢
    by_cases c4 : now < 14400 <;> by_cases c9 : now < 32400 <;>
      by_cases c14 : now < 50400 <;> by_cases c19 : now < 68400 <;>
        simp_all
  · intro now h
    obtain ⟨t, hmem, hlt⟩ := h
    unfold get_next_scheduled_time
    cases hf : SCHEDULE_TIMES.find? (fun t => decide (now < timeStrToSec t)) with
    | some t1 => simp
    | none =>
      exfalso
      have hnone := List.find?_eq_none.mp hf t hmem
      simp only [decide_eq_true_eq] at hnone
      exact hnone hlt
  · intro now h
    have h4 := h "04:00" (by simp [SCHEDULE_TIMES])
    have h9 := h "09:00" (by simp [SCHEDULE_TIMES])
    have h14 := h "14:00" (by simp [SCHEDULE_TIMES])
    have h19 := h "19:00" (by simp [SCHEDULE_TIMES])
    rw [e4] at h4; rw [e9] at h9; rw [e14] at h14; rw [e19] at h19
    unfold get_next_scheduled_time SCHEDULE_TIMES
    simp only [List.find?, e4, e9, e14, e19]
    simp [Nat.not_lt.mpr h4, Nat.not_lt.mpr h9, Nat.not_lt.mpr h14,
      Nat.not_lt.mpr h19]

/-- C6 witness: the 08:59 instance discharges the hypotheses of the two
universally quantified conjuncts. -/
theorem next_fire_time_correct_witness :
    ("09:00" ∈ SCHEDULE_TIMES ∧ 8 * 3600 + 59 * 60 < timeStrToSec "09:00" ∧
      ∀ t ∈ SCHEDULE_TIMES, 8 * 3600 + 59 * 60 < timeStrToSec t →
        timeStrToSec "09:00" ≤ timeStrToSec t) ∧
    (get_next_scheduled_time (8 * 3600 + 59 * 60)).1 = 0 ∧
    get_next_scheduled_time (19 * 3600 + 60) = (1, "04:00") :=
  ⟨next_fire_time_correct.1 (8 * 3600 + 59 * 60) "09:00" (by decide),
   next_fire_time_correct.2.1 (8 * 3600 + 59 * 60) ⟨"09:00", by decide, by decide⟩,
   next_fire_time_correct.2.2.1 (19 * 3600 + 60) (by decide)⟩

/-- C9: cancelling an armed custom schedule transitions the engine to
Idle with the cancel signal set, the cancel itself fires nothing, and a
waiter completing its wait afterwards does not fire either; the waiter's
sleep loop sleeps in sub-intervals of at most one second (µs granularity)
and returns without firing whenever the cancel signal is set by its
final check. -/
theorem cancel_custom_prevents_firing :
    (∀ s, s.auto_mode = false → s.custom_time.isSome = true →
      (cancel_custom s).1.mode = Mode.Idle ∧
      (cancel_custom s).1.custom_time = none ∧
      (cancel_custom s).1.custom_cancel_event = true ∧
      Eff.trigger ∉ (cancel_custom s).2 ∧
      Eff.trigger ∉ (custom_fire (cancel_custom s).1).2) ∧
    (∀ w, 0 < w → 0 < min 1000000 w ∧ min 1000000 w ≤ 1000000) ∧
    (∀ cancelled w i, cancelled (i + waitIters w) = true →
      waitLoop cancelled i w = false) := by
  refine ⟨?_, by omega, fun cancelled w i h => waitLoop_cancelled cancelled w i h⟩
  intro s ha hct
  obtain ⟨t, ht⟩ := Option.isSome_iff_exists.mp hct
  cases hcf : s.caffeinate <;>
    cases hth : s.custom_thread_alive <;>
      simp [cancel_custom, custom_fire, clear_custom, stop_caffeinate,
        SchedState.mode, ha, ht, hcf, hth]

/-- C9 witness: cancel a schedule armed for 09:00, and a waiter whose
cancel signal is constantly set. -/
theorem cancel_custom_prevents_firing_witness :
    ((cancel_custom (set_custom_time init "09:00" 0).1).1.mode = Mode.Idle ∧
     (cancel_custom (set_custom_time init "09:00" 0).1).1.custom_time = none ∧
     (cancel_custom (set_custom_time init "09:00" 0).1).1.custom_cancel_event
        = true ∧
     Eff.trigger ∉ (cancel_custom (set_custom_time init "09:00" 0).1).2 ∧
     Eff.trigger ∉
       (custom_fire (cancel_custom (set_custom_time init "09:00" 0).1).1).2) ∧
    (0 < min 1000000 5 ∧ min 1000000 5 ≤ 1000000) ∧
    waitLoop (fun _ => true) 0 5000000 = false :=
  ⟨cancel_custom_prevents_firing.1 (set_custom_time init "09:00" 0).1
      (by decide) (by decide),
   cancel_custom_prevents_firing.2.1 5 (by decide),
   cancel_custom_prevents_firing.2.2 (fun _ => true) 5000000 0 rfl⟩

end ClaudeScheduler
